import Mathlib

/-!
# Force-sensor firmware (`src/main.cpp`): connection life cycle and signal scaling

A shallow embedding of `main.cpp`.  The global variables of the sketch become the
fields of `World`; every call into an external library (micro-ROS client, display
driver, I2C bus, ADC driver, Arduino core) is appended to `World.trace`, and the value
such a call returns is read from the per-tick environment `TickEnv`.

A `float` is a rational number that binary32 represents, and every `float` operation
is the exact operation followed by `to_float`, rounding to the nearest binary32 value
with ties to even (overflow does not arise: `mapfloat` is applied to values between 185
and 950).  The only unbounded loop of the program, `error_loop`, runs on fuel; a
function that is still inside it when the fuel is gone yields `Outcome.looping`,
otherwise `Outcome.returned`.
-/

namespace ForceSensor

/-! ## Data model -/

/-- Enumeration `AgentState` (main.cpp, lines 36-41). -/
inductive AgentState
  | WAITING_AGENT
  | AGENT_AVAILABLE
  | AGENT_CONNECTED
  | AGENT_DISCONNECTED
  deriving DecidableEq, Repr

/-- Colour constants of the display driver used by the sketch. -/
inductive Color
  | TFT_BLACK
  | TFT_WHITE
  | TFT_RED
  | TFT_GREEN
  | TFT_YELLOW
  deriving DecidableEq, Repr

/-- Text handed to `drawBoldText`: a string literal, `String(val) + " N"`, or
`"ADC: " + String(Raw_ADC)`.  The two formatted texts keep the formatted number. -/
inductive Text
  | lit (s : String)
  | force (val : ℚ)
  | adc (Raw_ADC : Int)
  deriving DecidableEq, Repr

/-- Calls into external libraries, in the order the program issues them. -/
inductive Call
  | rcl_get_default_allocator
  | rclc_support_init
  | rclc_node_init_default (name ns : String)
  | rclc_publisher_init_default (topic : String)
  | rclc_timer_init_default (period_ns : Int)
  | rclc_executor_init (handles : Nat)
  | rclc_executor_add_timer
  | rcl_timer_fini
  | rclc_executor_fini
  | rcl_node_fini
  | rclc_support_fini
  | rcl_publisher_fini
  | rmw_uros_ping_agent (timeout_ms attempts : Int)
  | rclc_executor_spin_some (timeout_ns : Int)
  | rcl_publish (data : ℚ)
  | lcd_fillScreen (color : Color)
  | lcd_setTextSize (size : Nat)
  | lcd_setTextColor (fg bg : Color)
  | lcd_drawString (text : Text) (x y : Int)
  | Wire_beginTransmission (address : Int)
  | Wire_endTransmission
  | MCP_SetConfiguration (arg1 arg2 arg3 arg4 : Nat)
  | MCP_readADC
  | delay (ms : Nat)
  deriving DecidableEq, Repr

/-- The global variables of the sketch (lines 24-43).  A `*_live` flag is set when the
initialisation of that handle returned OK and cleared when its finalisation is called.
`trace` is the sequence of external calls made so far. -/
structure World where
  agent_state : AgentState
  val : ℚ
  msg_data : ℚ
  support_live : Bool
  node_live : Bool
  publisher_live : Bool
  timer_live : Bool
  executor_live : Bool
  timer_added : Bool
  trace : List Call

/-- What the external world answers during one iteration of `loop()`. -/
structure TickEnv where
  /-- return code of `rmw_uros_ping_agent` -/
  ping : Int
  /-- return codes of the six initialisation calls of `create_ros_entities` -/
  rc_support : Int
  rc_node : Int
  rc_publisher : Int
  rc_timer : Int
  rc_executor : Int
  rc_add_timer : Int
  /-- whether the executor finds the publish timer due while spinning -/
  timer_due : Bool
  /-- return code of `rcl_publish` -/
  rc_publish : Int
  /-- result of `Wire.endTransmission()` -/
  wire_error : Nat
  /-- result of `MCP.readADC()` -/
  raw_code : Int
  /-- results of `lcd.width()` and `lcd.height()` -/
  lcd_width : Int
  lcd_height : Int

/-- Result of running a piece of the program on fuel: it returned, or it is still
inside `error_loop` (in world `w`) when the fuel is used up. -/
inductive Outcome (α : Type)
  | returned (a : α)
  | looping (w : World)

/-- Sequencing: what follows runs only if the first part returned. -/
def Outcome.bind {α β : Type} (o : Outcome α) (f : α → Outcome β) : Outcome β :=
  match o with
  | .returned a => f a
  | .looping w => .looping w

/-- Constant `RCL_RET_OK` of the rcl headers. -/
def RCL_RET_OK : Int := 0

/-- Constant `RMW_RET_OK` of the rmw headers. -/
def RMW_RET_OK : Int := 0

/-- Macro `RCL_MS_TO_NS` of the rcl headers. -/
def RCL_MS_TO_NS (milliseconds : Int) : Int := milliseconds * (1000 * 1000)

/-- I2C address given to the ADC driver, `MCP3428 MCP(0x68)` (line 21). -/
def MCP_devAddr : Int := 0x68

/-- Record an external call. -/
def World.call (w : World) (c : Call) : World :=
  { w with trace := w.trace ++ [c] }

/-- The state before the first iteration of `loop()`: `agent_state = WAITING_AGENT`
(line 43), zero-initialised globals, no handle initialised. -/
def World.init : World :=
  { agent_state := .WAITING_AGENT, val := 0, msg_data := 0,
    support_live := false, node_live := false, publisher_live := false,
    timer_live := false, executor_live := false, timer_added := false, trace := [] }

/-- The entity set (node, publisher, timer, executor) exists. -/
def World.entities_exist (w : World) : Bool :=
  w.node_live && w.publisher_live && w.timer_live && w.executor_live

/-! ## Signal processing -/

/-- Rounding of a rational to the nearest integer, ties to the even one. -/
def round_even (r : ℚ) : Int :=
  if r - ⌊r⌋ < 1 / 2 then ⌊r⌋
  else if 1 / 2 < r - ⌊r⌋ then ⌊r⌋ + 1
  else if ⌊r⌋ % 2 = 0 then ⌊r⌋ else ⌊r⌋ + 1

/-- Binary32 exponent of `q`: the largest `e` with `2 ^ e ≤ |q|`, and `-126` for the
subnormal range. -/
def float_exponent (q : ℚ) : Int :=
  max (Int.log 2 |q|) (-126)

/-- Spacing of the binary32 values around `q` (24 significant bits). -/
def float_ulp (q : ℚ) : ℚ :=
  (2 : ℚ) ^ (float_exponent q - 23)

/-- Rounding to `float` (IEEE 754 binary32, round to nearest, ties to even). -/
def to_float (q : ℚ) : ℚ :=
  (round_even (q / float_ulp q) : ℚ) * float_ulp q

/-- Function `mapfloat` (lines 46-49); each of the six `float` operations rounds. -/
def mapfloat (x in_min in_max out_min out_max : ℚ) : ℚ :=
  to_float
    (to_float
        (to_float (to_float (x - in_min) * to_float (out_max - out_min)) /
          to_float (in_max - in_min)) +
      out_min)

/-- Arduino macro `constrain(amt, low, high)`:
`((amt)<(low)?(low):((amt)>(high)?(high):(amt)))`. -/
def constrain (amt low high : Int) : Int :=
  if amt < low then low else if amt > high then high else amt

/-- Conversion of a floating-point value to `long`: the fractional part is dropped. -/
def toLong (q : ℚ) : Int :=
  if 0 ≤ q then ⌊q⌋ else ⌈q⌉

/-- Line 191: `Raw_ADC = MCP.readADC() * 0.0625`. -/
def Raw_ADC_of (code : Int) : Int :=
  toLong ((code : ℚ) * 0.0625)

/-- Lines 193-194 as a function of `Raw_ADC`:
`val = constrain(Raw_ADC, 185, 950); val = mapfloat(val, 185, 950, 0, 20)`. -/
def scale (Raw_ADC : Int) : ℚ :=
  mapfloat (to_float ((constrain Raw_ADC 185 950 : Int) : ℚ)) 185 950 0 20

/-- The formula of the specification in exact rational arithmetic:
`(clamped - LOW_BOUND) * (MAX_OUTPUT - 0) / (HIGH_BOUND - LOW_BOUND) + 0`, with the
reading clamped to `[185, 950]`. -/
def exact_scaled (m : Int) : ℚ :=
  (((max 185 (min m 950) : Int) : ℚ) - 185) * (20 - 0) / (950 - 185) + 0

/-! ## Display helpers -/

/-- Function `drawBoldText` (lines 52-62). -/
def drawBoldText (text : Text) (x y : Int) (size : Nat) (color : Color) (w : World) : World :=
  let w := w.call (.lcd_setTextSize size)
  let w := w.call (.lcd_setTextColor color .TFT_BLACK)
  let w := w.call (.lcd_drawString text x y)
  let w := w.call (.lcd_drawString text (x + 1) y)
  let w := w.call (.lcd_drawString text x (y + 1))
  let w := w.call (.lcd_drawString text (x - 1) y)
  w.call (.lcd_drawString text x (y - 1))

/-- Function `error_loop` (lines 65-71): `while (1)` has no exit, so the only way out
of the model is running out of fuel. -/
def error_loop (env : TickEnv) : Nat → World → Outcome World
  | 0, w => .looping w
  | fuel + 1, w =>
    if (1 : Int) ≠ 0 then
      let w := w.call (.lcd_fillScreen .TFT_BLACK)
      let w := drawBoldText (.lit "ROS DISCONNECTED!")
        (Int.tdiv env.lcd_width 2) (Int.tdiv env.lcd_height 2) 2 .TFT_RED w
      let w := w.call (.delay 100)
      error_loop env fuel w
    else .returned w

/-- Macro `RCCHECK` (line 17), applied to the return code of a call already made. -/
def RCCHECK (env : TickEnv) (fuel : Nat) (temp_rc : Int) (w : World) : Outcome World :=
  if temp_rc ≠ RCL_RET_OK then error_loop env fuel w else .returned w

/-- Macro `RCSOFTCHECK` (line 18): the return code is compared and dropped. -/
def RCSOFTCHECK (temp_rc : Int) (w : World) : World :=
  if temp_rc ≠ RCL_RET_OK then w else w

/-! ## micro-ROS entities -/

/-- Function `timer_callback` (lines 74-80); `timer_nonnull` is `timer != NULL`. -/
def timer_callback (env : TickEnv) (timer_nonnull : Bool) (w : World) : World :=
  if timer_nonnull then
    let w := { w with msg_data := w.val }
    RCSOFTCHECK env.rc_publish (w.call (.rcl_publish w.msg_data))
  else w

/-- The executor's `rclc_executor_spin_some`: the registered timer callback runs,
with the registered timer, when the timer is due. -/
def rclc_executor_spin_some (env : TickEnv) (timeout_ns : Int) (w : World) : World :=
  let w := w.call (.rclc_executor_spin_some timeout_ns)
  if env.timer_due then timer_callback env true w else w

/-- Function `create_ros_entities` (lines 83-110). -/
def create_ros_entities (fuel : Nat) (env : TickEnv) (w : World) : Outcome (Bool × World) :=
  let w := w.call .rcl_get_default_allocator
  let w := { w.call .rclc_support_init with
    support_live := if env.rc_support = RCL_RET_OK then true else w.support_live }
  (RCCHECK env fuel env.rc_support w).bind fun w =>
  let w := { w.call (.rclc_node_init_default "force_sensor_node" "") with
    node_live := if env.rc_node = RCL_RET_OK then true else w.node_live }
  (RCCHECK env fuel env.rc_node w).bind fun w =>
  let w := { w.call (.rclc_publisher_init_default "force_sensor_data") with
    publisher_live := if env.rc_publisher = RCL_RET_OK then true else w.publisher_live }
  (RCCHECK env fuel env.rc_publisher w).bind fun w =>
  let timer_timeout : Int := 500
  let w := { w.call (.rclc_timer_init_default (RCL_MS_TO_NS timer_timeout)) with
    timer_live := if env.rc_timer = RCL_RET_OK then true else w.timer_live }
  (RCCHECK env fuel env.rc_timer w).bind fun w =>
  let w := { w.call (.rclc_executor_init 1) with
    executor_live := if env.rc_executor = RCL_RET_OK then true else w.executor_live }
  (RCCHECK env fuel env.rc_executor w).bind fun w =>
  let w := { w.call .rclc_executor_add_timer with
    timer_added := if env.rc_add_timer = RCL_RET_OK then true else w.timer_added }
  (RCCHECK env fuel env.rc_add_timer w).bind fun w =>
  let w := { w with msg_data := 0 }
  .returned (true, w)

/-- Function `destroy_ros_entities` (lines 113-120). -/
def destroy_ros_entities (w : World) : World :=
  let w := { w.call .rcl_timer_fini with timer_live := false, timer_added := false }
  let w := { w.call .rclc_executor_fini with executor_live := false }
  let w := { w.call .rcl_node_fini with node_live := false }
  let w := { w.call .rclc_support_fini with support_live := false }
  { w.call .rcl_publisher_fini with publisher_live := false }

/-! ## The control loop -/

/-- The `switch (agent_state)` of `loop()` (lines 146-177). -/
def loop_switch (fuel : Nat) (env : TickEnv) (w : World) : Outcome World :=
  match w.agent_state with
  | .WAITING_AGENT =>
    let w := w.call (.rmw_uros_ping_agent 100 1)
    if env.ping = RMW_RET_OK then
      .returned { w with agent_state := .AGENT_AVAILABLE }
    else .returned w
  | .AGENT_AVAILABLE =>
    (create_ros_entities fuel env w).bind fun r =>
    if r.1 then
      let w := { r.2 with agent_state := .AGENT_CONNECTED }
      let w := w.call (.lcd_fillScreen .TFT_BLACK)
      .returned (drawBoldText (.lit "ROS Connected!")
        (Int.tdiv env.lcd_width 2) (Int.tdiv env.lcd_height 2) 2 .TFT_GREEN w)
    else
      .returned { r.2 with agent_state := .WAITING_AGENT }
  | .AGENT_CONNECTED =>
    let w := w.call (.rmw_uros_ping_agent 100 1)
    if env.ping ≠ RMW_RET_OK then
      .returned { w with agent_state := .AGENT_DISCONNECTED }
    else
      .returned (rclc_executor_spin_some env (RCL_MS_TO_NS 100) w)
  | .AGENT_DISCONNECTED =>
    let w := destroy_ros_entities w
    let w := w.call (.lcd_fillScreen .TFT_BLACK)
    let w := drawBoldText (.lit "ROS Disconnected!")
      (Int.tdiv env.lcd_width 2) (Int.tdiv env.lcd_height 2) 2 .TFT_RED w
    .returned { w with agent_state := .WAITING_AGENT }

/-- The sensor part of `loop()` (lines 180-212). -/
def loop_sensor (env : TickEnv) (w : World) : World :=
  let address : Int := MCP_devAddr
  let w := w.call (.Wire_beginTransmission address)
  let w := w.call .Wire_endTransmission
  let error := env.wire_error
  let w :=
    if error = 0 then
      let w := w.call (.MCP_SetConfiguration 1 16 0 1)
      let w := w.call .MCP_readADC
      let Raw_ADC : Int := Raw_ADC_of env.raw_code
      let w := { w with val := to_float ((constrain Raw_ADC 185 950 : Int) : ℚ) }
      let w := { w with val := mapfloat w.val 185 950 0 20 }
      let w := w.call (.lcd_fillScreen .TFT_BLACK)
      let w := w.call (.lcd_setTextSize 2)
      let w := drawBoldText (.force w.val)
        (Int.tdiv env.lcd_width 2) (Int.tdiv env.lcd_height 3) 2 .TFT_YELLOW w
      drawBoldText (.adc Raw_ADC)
        (Int.tdiv env.lcd_width 2) (Int.tdiv (env.lcd_height * 2) 3) 2 .TFT_GREEN w
    else
      let w := w.call (.lcd_fillScreen .TFT_BLACK)
      drawBoldText (.lit "MCP3428 Disconnected!")
        (Int.tdiv env.lcd_width 2) (Int.tdiv env.lcd_height 2) 2 .TFT_WHITE w
  w.call (.delay 500)

/-- Function `loop` (lines 143-213): one tick. -/
def loop (fuel : Nat) (env : TickEnv) (w : World) : Outcome World :=
  (loop_switch fuel env w).bind fun w => .returned (loop_sensor env w)

/-- Consecutive ticks, one environment per tick. -/
def run (fuel : Nat) : List TickEnv → World → Outcome World
  | [], w => .returned w
  | env :: envs, w => (loop fuel env w).bind fun w => run fuel envs w

/-! ## Observations on traces and environments -/

/-- A finalisation call. -/
def Call.isFini : Call → Bool
  | .rcl_timer_fini => true
  | .rclc_executor_fini => true
  | .rcl_node_fini => true
  | .rclc_support_fini => true
  | .rcl_publisher_fini => true
  | _ => false

/-- A call made by `create_ros_entities`. -/
def Call.isInit : Call → Bool
  | .rcl_get_default_allocator => true
  | .rclc_support_init => true
  | .rclc_node_init_default _ _ => true
  | .rclc_publisher_init_default _ => true
  | .rclc_timer_init_default _ => true
  | .rclc_executor_init _ => true
  | .rclc_executor_add_timer => true
  | _ => false

/-- A call to the display driver, or `delay`. -/
def Call.isDisplay : Call → Bool
  | .lcd_fillScreen _ => true
  | .lcd_setTextSize _ => true
  | .lcd_setTextColor _ _ => true
  | .lcd_drawString _ _ _ => true
  | .delay _ => true
  | _ => false

/-- A call to the I2C bus or to the ADC driver. -/
def Call.isSensor : Call → Bool
  | .Wire_beginTransmission _ => true
  | .Wire_endTransmission => true
  | .MCP_SetConfiguration _ _ _ _ => true
  | .MCP_readADC => true
  | _ => false

/-- A call to `rcl_publish`. -/
def Call.isPublish : Call → Bool
  | .rcl_publish _ => true
  | _ => false

/-- All six initialisation calls of `create_ros_entities` return `RCL_RET_OK`. -/
def TickEnv.creation_ok (env : TickEnv) : Prop :=
  env.rc_support = RCL_RET_OK ∧ env.rc_node = RCL_RET_OK ∧ env.rc_publisher = RCL_RET_OK ∧
  env.rc_timer = RCL_RET_OK ∧ env.rc_executor = RCL_RET_OK ∧ env.rc_add_timer = RCL_RET_OK

instance (env : TickEnv) : Decidable env.creation_ok := by
  unfold TickEnv.creation_ok
  infer_instance

/-- The seven display calls of one `drawBoldText`. -/
def bold_calls (text : Text) (x y : Int) (size : Nat) (color : Color) : List Call :=
  [.lcd_setTextSize size, .lcd_setTextColor color .TFT_BLACK, .lcd_drawString text x y,
   .lcd_drawString text (x + 1) y, .lcd_drawString text x (y + 1),
   .lcd_drawString text (x - 1) y, .lcd_drawString text x (y - 1)]

/-- The calls of the sensor part of a tick, as a function of what the bus, the ADC and
the display geometry answer: presence check, then either sample and readout or the
sensor-disconnected text, then the end-of-loop delay. -/
def sensor_calls (wire_error : Nat) (raw_code lcd_width lcd_height : Int) : List Call :=
  [.Wire_beginTransmission 0x68, .Wire_endTransmission] ++
  (if wire_error = 0 then
    [.MCP_SetConfiguration 1 16 0 1, .MCP_readADC, .lcd_fillScreen .TFT_BLACK,
      .lcd_setTextSize 2] ++
    bold_calls (.force (scale (Raw_ADC_of raw_code)))
      (Int.tdiv lcd_width 2) (Int.tdiv lcd_height 3) 2 .TFT_YELLOW ++
    bold_calls (.adc (Raw_ADC_of raw_code))
      (Int.tdiv lcd_width 2) (Int.tdiv (lcd_height * 2) 3) 2 .TFT_GREEN
  else
    [.lcd_fillScreen .TFT_BLACK] ++
    bold_calls (.lit "MCP3428 Disconnected!")
      (Int.tdiv lcd_width 2) (Int.tdiv lcd_height 2) 2 .TFT_WHITE) ++
  [.delay 500]

/-- The value of `val` after the sensor part of a tick: the new sample when the sensor
answers, the old value otherwise. -/
def sensor_val (wire_error : Nat) (raw_code : Int) (old : ℚ) : ℚ :=
  if wire_error = 0 then scale (Raw_ADC_of raw_code) else old

/-- What `loop()` does to `agent_state` in one tick, read off the code: the state in
which a tick that starts in a given state ends, and `none` where the code does not
return from the tick. -/
def tick_end_state (env : TickEnv) : AgentState → Option AgentState
  | .WAITING_AGENT => some (if env.ping = RMW_RET_OK then .AGENT_AVAILABLE else .WAITING_AGENT)
  | .AGENT_AVAILABLE => if env.creation_ok then some .AGENT_CONNECTED else none
  | .AGENT_CONNECTED =>
    some (if env.ping = RMW_RET_OK then .AGENT_CONNECTED else .AGENT_DISCONNECTED)
  | .AGENT_DISCONNECTED => some .WAITING_AGENT

/-- A tick in which the agent answers, every initialisation succeeds, the publish timer
is due and the sensor delivers `raw_code`, on a 320 x 240 display. -/
def env_up (raw_code : Int) : TickEnv :=
  { ping := 0, rc_support := 0, rc_node := 0, rc_publisher := 0, rc_timer := 0,
    rc_executor := 0, rc_add_timer := 0, timer_due := true, rc_publish := 0,
    wire_error := 0, raw_code := raw_code, lcd_width := 320, lcd_height := 240 }

/-- A tick in which the probe fails. -/
def env_down (raw_code : Int) : TickEnv :=
  { env_up raw_code with ping := 1 }

/-- A tick in which `rclc_support_init` fails. -/
def env_support_fails : TickEnv :=
  { env_up 6400 with rc_support := 1 }

/-- A tick in which `rclc_support_init` succeeds and `rclc_node_init_default` fails. -/
def env_node_fails : TickEnv :=
  { env_up 6400 with rc_node := 1 }

/-- A tick in which the first three initialisations succeed and
`rclc_timer_init_default` fails. -/
def env_timer_fails : TickEnv :=
  { env_up 6400 with rc_timer := 1 }

/-- The initial world moved to `AGENT_AVAILABLE`, as after a first successful probe. -/
def world_available : World :=
  { World.init with agent_state := .AGENT_AVAILABLE }

/-- A world in `AGENT_CONNECTED` with every handle initialised and `val = 20`. -/
def world_connected : World :=
  { World.init with
    agent_state := .AGENT_CONNECTED, val := 20, support_live := true, node_live := true,
    publisher_live := true, timer_live := true, executor_live := true, timer_added := true }

/-- A computation that is still inside `error_loop` whatever fuel it is given. -/
def NeverReturns {α : Type} (f : Nat → Outcome α) : Prop :=
  ∀ fuel, ∃ w, f fuel = .looping w

/-- The calls made by `fuel` iterations of `error_loop`. -/
def error_calls (env : TickEnv) : Nat → List Call
  | 0 => []
  | fuel + 1 =>
    [.lcd_fillScreen .TFT_BLACK] ++
    bold_calls (.lit "ROS DISCONNECTED!")
      (Int.tdiv env.lcd_width 2) (Int.tdiv env.lcd_height 2) 2 .TFT_RED ++
    [.delay 100] ++ error_calls env fuel

/-- The calls made by a `create_ros_entities` in which every initialisation succeeds. -/
def create_calls : List Call :=
  [.rcl_get_default_allocator, .rclc_support_init,
   .rclc_node_init_default "force_sensor_node" "",
   .rclc_publisher_init_default "force_sensor_data",
   .rclc_timer_init_default (RCL_MS_TO_NS 500), .rclc_executor_init 1,
   .rclc_executor_add_timer]

/-- Nothing that was initialised in `w` is lost in `w1`, and every handle whose
initialisation was reached and returned OK is initialised in `w1`. -/
def Retains (env : TickEnv) (w w1 : World) : Prop :=
  (w.support_live = true → w1.support_live = true) ∧
  (w.node_live = true → w1.node_live = true) ∧
  (w.publisher_live = true → w1.publisher_live = true) ∧
  (w.timer_live = true → w1.timer_live = true) ∧
  (w.executor_live = true → w1.executor_live = true) ∧
  (env.rc_support = RCL_RET_OK → w1.support_live = true) ∧
  (env.rc_support = RCL_RET_OK → env.rc_node = RCL_RET_OK → w1.node_live = true) ∧
  (env.rc_support = RCL_RET_OK → env.rc_node = RCL_RET_OK →
    env.rc_publisher = RCL_RET_OK → w1.publisher_live = true) ∧
  (env.rc_support = RCL_RET_OK → env.rc_node = RCL_RET_OK →
    env.rc_publisher = RCL_RET_OK → env.rc_timer = RCL_RET_OK → w1.timer_live = true) ∧
  (env.rc_support = RCL_RET_OK → env.rc_node = RCL_RET_OK →
    env.rc_publisher = RCL_RET_OK → env.rc_timer = RCL_RET_OK →
    env.rc_executor = RCL_RET_OK → w1.executor_live = true)

/-- The calls made by `destroy_ros_entities`, in order. -/
def destroy_calls : List Call :=
  [.rcl_timer_fini, .rclc_executor_fini, .rcl_node_fini, .rclc_support_fini,
   .rcl_publisher_fini]

/-- The calls of the `AGENT_CONNECTED` case of the switch: the probe, then on success
the executor spin, inside which a due timer publishes `payload`. -/
def connected_calls (env : TickEnv) (payload : ℚ) : List Call :=
  [.rmw_uros_ping_agent 100 1] ++
  (if env.ping = RMW_RET_OK then
    [.rclc_executor_spin_some (RCL_MS_TO_NS 100)] ++
    (if env.timer_due = true then [.rcl_publish payload] else [])
  else [])

/-! ## Signal processing: helper lemmas -/

theorem constrain_eq_max_min (m : Int) : constrain m 185 950 = max 185 (min m 950) := by
  unfold constrain
  split_ifs <;> omega

theorem toLong_lt_of_lt {q : ℚ} {n : Int} (hn : 0 < n) (h : q < n) : toLong q < n := by
  unfold toLong
  split_ifs with h0
  · exact Int.floor_lt.mpr h
  · have hq : q ≤ ((0 : Int) : ℚ) := by push_cast; linarith
    have : ⌈q⌉ ≤ 0 := Int.ceil_le.mpr hq
    omega

theorem le_toLong_of_le {q : ℚ} {n : Int} (hn : 0 ≤ n) (h : (n : ℚ) ≤ q) : n ≤ toLong q := by
  unfold toLong
  have h0 : (0 : ℚ) ≤ q := le_trans (by exact_mod_cast hn) h
  rw [if_pos h0]
  exact Int.le_floor.mpr h

theorem Raw_ADC_of_mul16 (m : Int) : Raw_ADC_of (16 * m) = m := by
  unfold Raw_ADC_of toLong
  have e : (((16 * m : Int)) : ℚ) * 0.0625 = (m : ℚ) := by push_cast; ring
  rw [e]
  split_ifs <;> simp

theorem round_even_intCast (n : Int) : round_even (n : ℚ) = n := by
  simp [round_even]

theorem round_even_cases (r : ℚ) : round_even r = ⌊r⌋ ∨ round_even r = ⌊r⌋ + 1 := by
  unfold round_even
  split_ifs <;> simp

theorem round_even_mono {r1 r2 : ℚ} (h : r1 ≤ r2) : round_even r1 ≤ round_even r2 := by
  have hf : ⌊r1⌋ ≤ ⌊r2⌋ := Int.floor_mono h
  rcases lt_or_eq_of_le hf with hlt | heq
  · have a := round_even_cases r1
    have b := round_even_cases r2
    omega
  · unfold round_even
    rw [← heq]
    have : r1 - ⌊r1⌋ ≤ r2 - ⌊r1⌋ := by linarith
    split_ifs <;> first | omega | linarith

theorem round_even_abs_sub (r : ℚ) : |(round_even r : ℚ) - r| ≤ 1 / 2 := by
  have h1 := Int.floor_le r
  have h2 := Int.lt_floor_add_one r
  unfold round_even
  rw [abs_le]
  split_ifs <;> push_cast <;> constructor <;> linarith

theorem float_ulp_pos (q : ℚ) : 0 < float_ulp q := by
  unfold float_ulp
  positivity


theorem float_exponent_ge (q : ℚ) : -126 ≤ float_exponent q :=
  le_max_right _ _

theorem lt_two_zpow_float_exponent {q : ℚ} (h : 0 ≤ q) :
    q < (2 : ℚ) ^ (float_exponent q + 1) := by
  have h1 : q < ((2 : ℕ) : ℚ) ^ (Int.log 2 q + 1) := Int.lt_zpow_succ_log_self (by norm_num) q
  have h2 : ((2 : ℕ) : ℚ) ^ (Int.log 2 q + 1) ≤ (2 : ℚ) ^ (float_exponent q + 1) := by
    push_cast
    apply zpow_le_zpow_right₀ (by norm_num)
    unfold float_exponent
    rw [abs_of_nonneg h]
    have := le_max_left (Int.log 2 q) (-126)
    omega
  exact lt_of_lt_of_le h1 h2

theorem float_exponent_of_normal {q : ℚ} (h : (2 : ℚ) ^ (-126 : Int) ≤ q) :
    float_exponent q = Int.log 2 q ∧ (2 : ℚ) ^ float_exponent q ≤ q := by
  have hq : 0 < q := lt_of_lt_of_le (by positivity) h
  have hl : (-126 : Int) ≤ Int.log 2 q := by
    rw [← Int.zpow_le_iff_le_log (by norm_num) hq]
    exact_mod_cast h
  have he : float_exponent q = Int.log 2 q := by
    unfold float_exponent
    rw [abs_of_pos hq]
    exact max_eq_left hl
  refine ⟨he, ?_⟩
  rw [he]
  have := Int.zpow_log_le_self (b := 2) (r := q) (by norm_num) hq
  exact_mod_cast this

theorem to_float_of_mul_ulp (q : ℚ) (k : Int) (h : q = (k : ℚ) * float_ulp q) :
    to_float q = q := by
  unfold to_float
  have hu := float_ulp_pos q
  have : q / float_ulp q = (k : ℚ) := by
    rw [div_eq_iff (ne_of_gt hu)]
    exact h
  rw [this, round_even_intCast]
  exact h.symm

theorem to_float_zero : to_float 0 = 0 := by
  simp [to_float, round_even]

theorem to_float_intCast (n : Int) (h0 : 0 ≤ n) (h1 : n < 2 ^ 24) : to_float (n : ℚ) = n := by
  rcases eq_or_lt_of_le h0 with h | h
  · subst h
    simpa using to_float_zero
  · have hq : (0 : ℚ) < (n : ℚ) := by exact_mod_cast h
    have hn : (2 : ℚ) ^ (-126 : Int) ≤ (n : ℚ) := by
      have h1 : (1 : ℚ) ≤ (n : ℚ) := by exact_mod_cast h
      have h2 : (2 : ℚ) ^ (-126 : Int) ≤ 1 := by
        apply zpow_le_one_of_nonpos₀ <;> norm_num
      linarith
    obtain ⟨he, _⟩ := float_exponent_of_normal hn
    have hlo : (0 : Int) ≤ Int.log 2 (n : ℚ) := by
      rw [← Int.zpow_le_iff_le_log (by norm_num) hq]
      simpa using (show (1 : ℚ) ≤ (n : ℚ) by exact_mod_cast h)
    have hhi : Int.log 2 (n : ℚ) < 24 := by
      rw [← Int.lt_zpow_iff_log_lt (by norm_num) hq]
      have : (n : ℚ) < 16777216 := by
        have : n < 16777216 := by norm_num at h1; exact h1
        exact_mod_cast this
      norm_num
      exact this
    obtain ⟨j, hj⟩ : ∃ j : ℕ, (j : Int) = 23 - float_exponent (n : ℚ) :=
      ⟨(23 - float_exponent (n : ℚ)).toNat, by rw [he]; omega⟩
    have hu : float_ulp (n : ℚ) = ((2 : ℚ) ^ j)⁻¹ := by
      unfold float_ulp
      have : float_exponent (n : ℚ) - 23 = -(j : Int) := by omega
      rw [this, zpow_neg, zpow_natCast]
    apply to_float_of_mul_ulp (n : ℚ) (n * 2 ^ j)
    rw [hu]
    push_cast
    field_simp

theorem two_zpow_le_to_float {q : ℚ} (h : (2 : ℚ) ^ (-126 : Int) ≤ q) :
    (2 : ℚ) ^ float_exponent q ≤ to_float q := by
  obtain ⟨_, hle⟩ := float_exponent_of_normal h
  have hu := float_ulp_pos q
  have e : (2 : ℚ) ^ float_exponent q = (((2 : Int) ^ 23 : Int) : ℚ) * float_ulp q := by
    unfold float_ulp
    rw [zpow_sub₀ (by norm_num)]
    push_cast
    field_simp
    norm_num
    ring
  have hk : (((2 : Int) ^ 23 : Int) : ℚ) ≤ q / float_ulp q := by
    rw [le_div_iff₀ hu, ← e]
    exact hle
  have := round_even_mono hk
  rw [round_even_intCast] at this
  unfold to_float
  rw [e]
  apply mul_le_mul_of_nonneg_right _ (le_of_lt hu)
  exact_mod_cast this

theorem to_float_le_two_zpow {q : ℚ} (h : 0 ≤ q) :
    to_float q ≤ (2 : ℚ) ^ (float_exponent q + 1) := by
  have hlt := lt_two_zpow_float_exponent h
  have hu := float_ulp_pos q
  have e : (2 : ℚ) ^ (float_exponent q + 1) = (((2 : Int) ^ 24 : Int) : ℚ) * float_ulp q := by
    unfold float_ulp
    rw [zpow_sub₀ (by norm_num), zpow_add₀ (by norm_num)]
    push_cast
    field_simp
    ring
  have hk : q / float_ulp q ≤ (((2 : Int) ^ 24 : Int) : ℚ) := by
    rw [div_le_iff₀ hu, ← e]
    exact le_of_lt hlt
  have := round_even_mono hk
  rw [round_even_intCast] at this
  unfold to_float
  rw [e]
  apply mul_le_mul_of_nonneg_right _ (le_of_lt hu)
  exact_mod_cast this

theorem to_float_nonneg {q : ℚ} (h : 0 ≤ q) : 0 ≤ to_float q := by
  unfold to_float
  have hu := float_ulp_pos q
  have : (0 : ℚ) ≤ q / float_ulp q := div_nonneg h (le_of_lt hu)
  have h0 : ((0 : Int) : ℚ) ≤ q / float_ulp q := by exact_mod_cast this
  have := round_even_mono h0
  rw [round_even_intCast] at this
  apply mul_nonneg _ (le_of_lt hu)
  exact_mod_cast this

theorem float_exponent_mono {q1 q2 : ℚ} (h0 : 0 < q1) (h : q1 ≤ q2) :
    float_exponent q1 ≤ float_exponent q2 := by
  unfold float_exponent
  rw [abs_of_pos h0, abs_of_pos (lt_of_lt_of_le h0 h)]
  exact max_le_max (Int.log_mono_right h0 h) le_rfl

theorem to_float_mono {q1 q2 : ℚ} (h0 : 0 ≤ q1) (h : q1 ≤ q2) :
    to_float q1 ≤ to_float q2 := by
  rcases eq_or_lt_of_le h0 with hz | hpos
  · rw [← hz, to_float_zero]
    exact to_float_nonneg (le_trans h0 h)
  · have he := float_exponent_mono hpos h
    rcases eq_or_lt_of_le he with heq | hlt
    · have hu : float_ulp q1 = float_ulp q2 := by
        unfold float_ulp
        rw [heq]
      unfold to_float
      rw [hu]
      have hp := float_ulp_pos q2
      apply mul_le_mul_of_nonneg_right _ (le_of_lt hp)
      have : q1 / float_ulp q2 ≤ q2 / float_ulp q2 :=
        div_le_div_of_nonneg_right h (le_of_lt hp)
      exact_mod_cast round_even_mono this
    · have hq2 : 0 < q2 := lt_of_lt_of_le hpos h
      have hn : (2 : ℚ) ^ (-126 : Int) ≤ q2 := by
        have h126 : -126 < float_exponent q2 := lt_of_le_of_lt (float_exponent_ge q1) hlt
        have hl : float_exponent q2 = Int.log 2 q2 := by
          unfold float_exponent at h126 ⊢
          rw [abs_of_pos hq2] at h126 ⊢
          rcases max_cases (Int.log 2 q2) (-126) with ⟨hm, _⟩ | ⟨hm, _⟩
          · exact hm
          · omega
        have hle : (-126 : Int) ≤ Int.log 2 q2 := by omega
        rw [← Int.zpow_le_iff_le_log (by norm_num) hq2] at hle
        exact_mod_cast hle
      calc to_float q1 ≤ (2 : ℚ) ^ (float_exponent q1 + 1) := to_float_le_two_zpow h0
        _ ≤ (2 : ℚ) ^ float_exponent q2 := zpow_le_zpow_right₀ (by norm_num) (by omega)
        _ ≤ to_float q2 := two_zpow_le_to_float hn

theorem float_exponent_eq {q : ℚ} {e : Int} (he : -126 ≤ e) (h1 : (2 : ℚ) ^ e ≤ q)
    (h2 : q < (2 : ℚ) ^ (e + 1)) : float_exponent q = e := by
  have hq : 0 < q := lt_of_lt_of_le (by positivity) h1
  have a : e ≤ Int.log 2 q := by
    rw [← Int.zpow_le_iff_le_log (by norm_num) hq]
    exact_mod_cast h1
  have b : Int.log 2 q < e + 1 := by
    rw [← Int.lt_zpow_iff_log_lt (by norm_num) hq]
    exact_mod_cast h2
  unfold float_exponent
  rw [abs_of_pos hq]
  have : Int.log 2 q = e := by omega
  rw [this]
  exact max_eq_left he

theorem to_float_idem {q : ℚ} (h : (2 : ℚ) ^ (-126 : Int) ≤ q) :
    to_float (to_float q) = to_float q := by
  have hq : 0 < q := lt_of_lt_of_le (by positivity) h
  have hlo := two_zpow_le_to_float h
  have hhi := to_float_le_two_zpow (le_of_lt hq)
  have hge := float_exponent_ge q
  rcases eq_or_lt_of_le hhi with heq | hlt
  · have hlog : float_exponent (to_float q) = float_exponent q + 1 := by
      apply float_exponent_eq (by omega)
      · rw [heq]
      · rw [heq]
        exact zpow_lt_zpow_right₀ (by norm_num) (by omega)
    apply to_float_of_mul_ulp (to_float q) ((2 : Int) ^ 23)
    unfold float_ulp
    rw [hlog, heq, zpow_sub₀ (by norm_num)]
    push_cast
    field_simp
    norm_num
    ring
  · have hlog : float_exponent (to_float q) = float_exponent q :=
      float_exponent_eq hge hlo hlt
    apply to_float_of_mul_ulp (to_float q) (round_even (q / float_ulp q))
    have : float_ulp (to_float q) = float_ulp q := by
      unfold float_ulp
      rw [hlog]
    rw [this]
    rfl

theorem to_float_abs_sub_le {q : ℚ} (h : (2 : ℚ) ^ (-126 : Int) ≤ q) :
    |to_float q - q| ≤ q / 2 ^ 24 := by
  obtain ⟨_, hle⟩ := float_exponent_of_normal h
  have hu := float_ulp_pos q
  have hr := round_even_abs_sub (q / float_ulp q)
  have e1 : to_float q - q = ((round_even (q / float_ulp q) : ℚ) - q / float_ulp q) *
      float_ulp q := by
    unfold to_float
    field_simp
  rw [e1, abs_mul, abs_of_pos hu]
  have e2 : float_ulp q = (2 : ℚ) ^ float_exponent q / 2 ^ 23 := by
    unfold float_ulp
    rw [zpow_sub₀ (by norm_num)]
    norm_num
  calc |(round_even (q / float_ulp q) : ℚ) - q / float_ulp q| * float_ulp q
      ≤ 1 / 2 * float_ulp q := mul_le_mul_of_nonneg_right hr (le_of_lt hu)
    _ = (2 : ℚ) ^ float_exponent q / 2 ^ 24 := by rw [e2]; ring
    _ ≤ q / 2 ^ 24 := div_le_div_of_nonneg_right hle (by positivity)

theorem round_even_eq_of_abs_lt {r : ℚ} {k : Int} (h : |r - (k : ℚ)| < 1 / 2) :
    round_even r = k := by
  have hr := round_even_abs_sub r
  rw [abs_lt] at h
  rw [abs_le] at hr
  have a : ((round_even r : Int) : ℚ) < (k : ℚ) + 1 := by linarith
  have b : (k : ℚ) - 1 < ((round_even r : Int) : ℚ) := by linarith
  have a1 : round_even r < k + 1 := by exact_mod_cast a
  have b1 : k - 1 < round_even r := by exact_mod_cast b
  omega

theorem to_float_eq {q : ℚ} (e k : Int) (he : -126 ≤ e) (h1 : (2 : ℚ) ^ e ≤ q)
    (h2 : q < (2 : ℚ) ^ (e + 1)) (hk : |q / (2 : ℚ) ^ (e - 23) - (k : ℚ)| < 1 / 2) :
    to_float q = (k : ℚ) * (2 : ℚ) ^ (e - 23) := by
  unfold to_float float_ulp
  rw [float_exponent_eq he h1 h2, round_even_eq_of_abs_lt hk]

theorem to_float_860_153 : to_float (860 / 153) = 11787913 / 2097152 := by
  rw [to_float_eq 2 11787913 (by norm_num) (by norm_num) (by norm_num)
    (by rw [abs_lt]; constructor <;> norm_num)]
  norm_num

theorem exact_scaled_eq (m : Int) :
    exact_scaled m = (((constrain m 185 950 - 185) * 20 : Int) : ℚ) / 765 := by
  unfold exact_scaled
  rw [← constrain_eq_max_min]
  push_cast
  norm_num

theorem constrain_bounds (m : Int) : 185 ≤ constrain m 185 950 ∧ constrain m 185 950 ≤ 950 := by
  unfold constrain
  split_ifs <;> omega

theorem exact_scaled_zero_or_normal (m : Int) :
    exact_scaled m = 0 ∨ (2 : ℚ) ^ (-126 : Int) ≤ exact_scaled m := by
  rw [exact_scaled_eq]
  obtain ⟨h1, h2⟩ := constrain_bounds m
  rcases eq_or_lt_of_le h1 with h | h
  · left
    rw [← h]
    norm_num
  · right
    have hc : (1 : ℚ) ≤ ((constrain m 185 950 - 185 : Int) : ℚ) := by
      have : (1 : Int) ≤ constrain m 185 950 - 185 := by omega
      exact_mod_cast this
    have hs : (2 : ℚ) ^ (-126 : Int) ≤ 20 / 765 := by
      calc (2 : ℚ) ^ (-126 : Int) ≤ (2 : ℚ) ^ (-6 : Int) :=
            zpow_le_zpow_right₀ (by norm_num) (by norm_num)
        _ ≤ 20 / 765 := by norm_num
    have : (20 : ℚ) / 765 ≤ (((constrain m 185 950 - 185) * 20 : Int) : ℚ) / 765 := by
      apply div_le_div_of_nonneg_right _ (by norm_num)
      push_cast at hc ⊢
      linarith
    linarith

theorem scale_eq_to_float (m : Int) : scale m = to_float (exact_scaled m) := by
  obtain ⟨h1, h2⟩ := constrain_bounds m
  have e0 : to_float ((constrain m 185 950 : Int) : ℚ) = ((constrain m 185 950 : Int) : ℚ) :=
    to_float_intCast _ (by omega) (by norm_num; omega)
  have e1 : to_float (((constrain m 185 950 : Int) : ℚ) - 185)
      = ((constrain m 185 950 - 185 : Int) : ℚ) := by
    have := to_float_intCast (constrain m 185 950 - 185) (by omega) (by norm_num; omega)
    push_cast at this ⊢
    exact this
  have e2 : to_float ((20 : ℚ) - 0) = ((20 : Int) : ℚ) := by
    have := to_float_intCast 20 (by norm_num) (by norm_num)
    simpa using this
  have e3 : to_float (((constrain m 185 950 - 185 : Int) : ℚ) * ((20 : Int) : ℚ))
      = (((constrain m 185 950 - 185) * 20 : Int) : ℚ) := by
    have := to_float_intCast ((constrain m 185 950 - 185) * 20) (by omega)
      (by norm_num; omega)
    push_cast at this ⊢
    exact this
  have e4 : to_float ((950 : ℚ) - 185) = 765 := by
    have := to_float_intCast 765 (by norm_num) (by norm_num)
    norm_num at this ⊢
    exact this
  unfold scale mapfloat
  rw [e0, e1, e2, e3, e4, add_zero, ← exact_scaled_eq]
  rcases exact_scaled_zero_or_normal m with h | h
  · rw [h, to_float_zero, to_float_zero]
  · exact to_float_idem h

theorem mapfloat_constrain_eq_scale (m : Int) :
    mapfloat ((constrain m 185 950 : Int) : ℚ) 185 950 0 20 = scale m := by
  obtain ⟨h1, h2⟩ := constrain_bounds m
  unfold scale
  rw [to_float_intCast _ (by omega) (by norm_num; omega)]

theorem scale_low {m : Int} (h : m < 185) : scale m = 0 := by
  rw [scale_eq_to_float, exact_scaled_eq]
  have : constrain m 185 950 = 185 := by
    unfold constrain
    rw [if_pos h]
  rw [this]
  norm_num
  exact to_float_zero

theorem scale_high {m : Int} (h : 950 ≤ m) : scale m = 20 := by
  rw [scale_eq_to_float, exact_scaled_eq]
  have : constrain m 185 950 = 950 := by
    unfold constrain
    split_ifs <;> omega
  rw [this]
  have := to_float_intCast 20 (by norm_num) (by norm_num)
  norm_num at this ⊢
  exact this

theorem scale_400 : scale 400 = 11787913 / 2097152 := by
  rw [scale_eq_to_float]
  have : exact_scaled 400 = 860 / 153 := by
    unfold exact_scaled
    norm_num
  rw [this, to_float_860_153]

theorem scale_mono {m1 m2 : Int} (h : m1 ≤ m2) : scale m1 ≤ scale m2 := by
  rw [scale_eq_to_float, scale_eq_to_float]
  have hc : constrain m1 185 950 ≤ constrain m2 185 950 := by
    unfold constrain
    split_ifs <;> omega
  obtain ⟨h1, _⟩ := constrain_bounds m1
  apply to_float_mono
  · rw [exact_scaled_eq]
    apply div_nonneg _ (by norm_num)
    have : (0 : Int) ≤ (constrain m1 185 950 - 185) * 20 := by omega
    exact_mod_cast this
  · rw [exact_scaled_eq, exact_scaled_eq]
    apply div_le_div_of_nonneg_right _ (by norm_num)
    have : (constrain m1 185 950 - 185) * 20 ≤ (constrain m2 185 950 - 185) * 20 := by omega
    exact_mod_cast this

theorem loop_sensor_val (env : TickEnv) (w : World) (hs : env.wire_error = 0) :
    (loop_sensor env w).val = scale (Raw_ADC_of env.raw_code) := by
  simp [loop_sensor, hs, World.call, drawBoldText, scale]

/-! ## Signal processing: saturation, formula, monotonicity -/

/-- C5: saturation.  In a tick whose sensor is present, if the millivolt value of the
raw code (the exact product `code * 0.0625`, or its truncation `Raw_ADC`) is below 185
the resulting `val` is 0, and if it is above 950 the resulting `val` is 20. -/
theorem C5_saturation (env : TickEnv) (w : World) (hs : env.wire_error = 0) :
    ((env.raw_code : ℚ) * 0.0625 < 185 → (loop_sensor env w).val = 0) ∧
    (Raw_ADC_of env.raw_code < 185 → (loop_sensor env w).val = 0) ∧
    ((env.raw_code : ℚ) * 0.0625 > 950 → (loop_sensor env w).val = 20) ∧
    (Raw_ADC_of env.raw_code > 950 → (loop_sensor env w).val = 20) := by
  rw [loop_sensor_val env w hs]
  refine ⟨fun h => ?_, fun h => scale_low h, fun h => ?_, fun h => scale_high (by omega)⟩
  · exact scale_low (toLong_lt_of_lt (by norm_num) (by exact_mod_cast h))
  · apply scale_high
    exact le_toLong_of_le (by norm_num) (by push_cast; exact le_of_lt h)

/-- Witness of C5: raw codes 1600 (100 mV) and 16000 (1000 mV). -/
theorem C5_saturation_witness :
    (((1600 : Int) : ℚ) * 0.0625 < 185 ∧ Raw_ADC_of 1600 < 185 ∧
      (loop_sensor ⟨0, 0, 0, 0, 0, 0, 0, false, 0, 0, 1600, 320, 240⟩ World.init).val = 0) ∧
    (((16000 : Int) : ℚ) * 0.0625 > 950 ∧ Raw_ADC_of 16000 > 950 ∧
      (loop_sensor ⟨0, 0, 0, 0, 0, 0, 0, false, 0, 0, 16000, 320, 240⟩ World.init).val = 20) := by
  have e1 : Raw_ADC_of 1600 = 100 := Raw_ADC_of_mul16 100
  have e2 : Raw_ADC_of 16000 = 1000 := Raw_ADC_of_mul16 1000
  refine ⟨⟨by norm_num, by rw [e1]; decide, ?_⟩, ⟨by norm_num, by rw [e2]; decide, ?_⟩⟩
  · exact (C5_saturation ⟨0, 0, 0, 0, 0, 0, 0, false, 0, 0, 1600, 320, 240⟩ World.init rfl).1
      (by norm_num)
  · exact (C5_saturation ⟨0, 0, 0, 0, 0, 0, 0, false, 0, 0, 16000, 320, 240⟩ World.init rfl).2.2.1
      (by norm_num)

/-- C6 as stated fails: with raw code 6400 the reading is 400 mV and the clamped value
400, but the `float` sample is 11787913/2097152 (bit pattern 0x40b3de89), not the exact
rational `(400 - 185) * (20 - 0) / (950 - 185) + 0 = 860/153`. -/
theorem C6_counterexample :
    Raw_ADC_of (env_up 6400).raw_code = 400 ∧ (env_up 6400).wire_error = 0 ∧
    max 185 (min 400 950) = 400 ∧
    (loop_sensor (env_up 6400) World.init).val = 11787913 / 2097152 ∧
    (loop_sensor (env_up 6400) World.init).val
      ≠ (((max 185 (min 400 950) : Int) : ℚ) - 185) * (20 - 0) / (950 - 185) + 0 := by
  have r : Raw_ADC_of (env_up 6400).raw_code = 400 := Raw_ADC_of_mul16 400
  have v : (loop_sensor (env_up 6400) World.init).val = 11787913 / 2097152 := by
    rw [loop_sensor_val _ _ rfl, r, scale_400]
  refine ⟨r, rfl, by decide, v, ?_⟩
  rw [v]
  norm_num

/-- C6, amended: for every integer millivolt reading `m`, the sample computed by the
sensor branch of `loop()` is the `float` nearest to the exact rational
`(c - 185) * (20 - 0) / (950 - 185) + 0`, with `c` the reading clamped to `[185, 950]`,
and differs from it by at most that value divided by `2 ^ 24`; the divisor `950 - 185`
is non-zero; and `m = 400` gives `c = 400`, the exact value `860/153` and
`val = 11787913/2097152`, which lies in `[5.62, 5.63)`. -/
theorem C6_scaling_is_rounded_formula (m : Int) (env : TickEnv) (w : World)
    (hs : env.wire_error = 0) (hm : Raw_ADC_of env.raw_code = m) :
    (loop_sensor env w).val
        = to_float ((((max 185 (min m 950) : Int) : ℚ) - 185) * (20 - 0) / (950 - 185) + 0) ∧
    |(loop_sensor env w).val
        - ((((max 185 (min m 950) : Int) : ℚ) - 185) * (20 - 0) / (950 - 185) + 0)|
      ≤ ((((max 185 (min m 950) : Int) : ℚ) - 185) * (20 - 0) / (950 - 185) + 0) / 2 ^ 24 ∧
    ((950 : ℚ) - 185 ≠ 0) ∧
    (m = 400 → max 185 (min m 950) = 400 ∧
      (((max 185 (min m 950) : Int) : ℚ) - 185) * (20 - 0) / (950 - 185) + 0 = 860 / 153 ∧
      (loop_sensor env w).val = 11787913 / 2097152 ∧
      (5.62 : ℚ) ≤ (loop_sensor env w).val ∧ (loop_sensor env w).val < 5.63) := by
  rw [loop_sensor_val env w hs, hm, scale_eq_to_float]
  change to_float (exact_scaled m) = to_float (exact_scaled m) ∧
    |to_float (exact_scaled m) - exact_scaled m| ≤ exact_scaled m / 2 ^ 24 ∧
    ((950 : ℚ) - 185 ≠ 0) ∧
    (m = 400 → max 185 (min m 950) = 400 ∧ exact_scaled m = 860 / 153 ∧
      to_float (exact_scaled m) = 11787913 / 2097152 ∧
      (5.62 : ℚ) ≤ to_float (exact_scaled m) ∧ to_float (exact_scaled m) < 5.63)
  refine ⟨rfl, ?_, by norm_num, ?_⟩
  · rcases exact_scaled_zero_or_normal m with h | h
    · rw [h, to_float_zero]
      norm_num
    · exact to_float_abs_sub_le h
  · intro h
    subst h
    have e : exact_scaled 400 = 860 / 153 := by
      unfold exact_scaled
      norm_num
    rw [e, to_float_860_153]
    refine ⟨by decide, rfl, rfl, by norm_num, by norm_num⟩

/-- Witness of C6: raw code 6400, that is 400 mV. -/
theorem C6_scaling_is_rounded_formula_witness :
    (loop_sensor ⟨0, 0, 0, 0, 0, 0, 0, false, 0, 0, 6400, 320, 240⟩ World.init).val
      = 11787913 / 2097152 :=
  ((C6_scaling_is_rounded_formula 400 ⟨0, 0, 0, 0, 0, 0, 0, false, 0, 0, 6400, 320, 240⟩
    World.init rfl (Raw_ADC_of_mul16 400)).2.2.2 rfl).2.2.1

/-- C7: scaling is monotonic.  For millivolt values `mv1 < mv2` with `185 ≤ mv1` and
`mv2 ≤ 950`, the scaled value of `mv1` is at most the scaled value of `mv2`, both for
`mapfloat` applied to the constrained readings and for `scale`, which converts the
constrained reading to `float` first as line 193 does. -/
theorem C7_scaling_monotone (mv1 mv2 : Int) (h : mv1 < mv2) (h1 : 185 ≤ mv1)
    (h2 : mv2 ≤ 950) :
    mapfloat ((constrain mv1 185 950 : Int) : ℚ) 185 950 0 20
      ≤ mapfloat ((constrain mv2 185 950 : Int) : ℚ) 185 950 0 20 ∧
    scale mv1 ≤ scale mv2 := by
  have _ := And.intro h1 h2
  rw [mapfloat_constrain_eq_scale, mapfloat_constrain_eq_scale]
  exact ⟨scale_mono (le_of_lt h), scale_mono (le_of_lt h)⟩

/-- Witness of C7: 400 mV and 401 mV. -/
theorem C7_scaling_monotone_witness :
    mapfloat ((constrain 400 185 950 : Int) : ℚ) 185 950 0 20
      ≤ mapfloat ((constrain 401 185 950 : Int) : ℚ) 185 950 0 20 :=
  (C7_scaling_monotone 400 401 (by decide) (by decide) (by decide)).1

/-! ## Control loop: helper lemmas -/

theorem loop_sensor_eq (env : TickEnv) (w : World) :
    loop_sensor env w =
      { w with
        val := sensor_val env.wire_error env.raw_code w.val,
        trace := w.trace ++
          sensor_calls env.wire_error env.raw_code env.lcd_width env.lcd_height } := by
  by_cases hs : env.wire_error = 0 <;>
    simp [loop_sensor, hs, World.call, drawBoldText, sensor_calls, sensor_val, bold_calls,
      scale, MCP_devAddr]

theorem error_loop_eq (env : TickEnv) (fuel : Nat) :
    ∀ w : World,
      error_loop env fuel w = .looping { w with trace := w.trace ++ error_calls env fuel } := by
  induction fuel with
  | zero =>
    intro w
    simp [error_loop, error_calls]
  | succ n ih =>
    intro w
    simp only [error_loop]
    rw [if_pos (by decide), ih]
    simp [World.call, drawBoldText, bold_calls, error_calls]

theorem error_calls_display (env : TickEnv) (fuel : Nat) :
    ∀ c ∈ error_calls env fuel, c.isDisplay = true := by
  induction fuel with
  | zero => simp [error_calls]
  | succ n ih =>
    intro c hc
    simp only [error_calls, List.mem_append, bold_calls] at hc
    rcases hc with ((hc | hc) | hc) | hc
    · simp at hc; subst hc; rfl
    · simp at hc
      rcases hc with h | h | h | h | h | h | h <;> subst h <;> rfl
    · simp at hc; subst hc; rfl
    · exact ih c hc

theorem isSensor_false_of_init_or_display {c : Call}
    (h : c.isInit = true ∨ c.isDisplay = true) : c.isSensor = false := by
  cases c <;> simp_all [Call.isDisplay, Call.isInit, Call.isSensor]

theorem create_ros_entities_ok (fuel : Nat) (env : TickEnv) (w : World)
    (h : env.creation_ok) :
    create_ros_entities fuel env w = .returned (true,
      { w with
        msg_data := 0, support_live := true, node_live := true, publisher_live := true,
        timer_live := true, executor_live := true, timer_added := true,
        trace := w.trace ++ create_calls }) := by
  obtain ⟨h1, h2, h3, h4, h5, h6⟩ := h
  simp [create_ros_entities, RCCHECK, h1, h2, h3, h4, h5, h6, Outcome.bind, World.call,
    create_calls]

theorem create_ros_entities_fail (fuel : Nat) (env : TickEnv) (w : World)
    (h : ¬ env.creation_ok) :
    ∃ w1 t, create_ros_entities fuel env w = .looping w1 ∧
      w1.agent_state = w.agent_state ∧ w1.val = w.val ∧
      w1.trace = w.trace ++ t ∧ (∀ c ∈ t, c.isInit = true ∨ c.isDisplay = true) ∧
      Retains env w w1 := by
  have hd := error_calls_display env fuel
  have hf : ∀ c ∈ error_calls env fuel, c.isInit = true ∨ c.isDisplay = true :=
    fun c hc => Or.inr (hd c hc)
  by_cases h1 : env.rc_support = RCL_RET_OK
  · by_cases h2 : env.rc_node = RCL_RET_OK
    · by_cases h3 : env.rc_publisher = RCL_RET_OK
      · by_cases h4 : env.rc_timer = RCL_RET_OK
        · by_cases h5 : env.rc_executor = RCL_RET_OK
          · by_cases h6 : env.rc_add_timer = RCL_RET_OK
            · exact absurd ⟨h1, h2, h3, h4, h5, h6⟩ h
            · simp [create_ros_entities, RCCHECK, h1, h2, h3, h4, h5, h6, error_loop_eq,
                Outcome.bind, World.call, Retains, Call.isInit, Call.isDisplay]
              exact hf
          · simp [create_ros_entities, RCCHECK, h1, h2, h3, h4, h5, error_loop_eq,
              Outcome.bind, World.call, Retains, Call.isInit, Call.isDisplay]
            exact hf
        · simp [create_ros_entities, RCCHECK, h1, h2, h3, h4, error_loop_eq,
            Outcome.bind, World.call, Retains, Call.isInit, Call.isDisplay]
          exact hf
      · simp [create_ros_entities, RCCHECK, h1, h2, h3, error_loop_eq,
          Outcome.bind, World.call, Retains, Call.isInit, Call.isDisplay]
        exact hf
    · simp [create_ros_entities, RCCHECK, h1, h2, error_loop_eq,
        Outcome.bind, World.call, Retains, Call.isInit, Call.isDisplay]
      exact hf
  · simp [create_ros_entities, RCCHECK, h1, error_loop_eq,
      Outcome.bind, World.call, Retains, Call.isInit, Call.isDisplay]
    exact hf

theorem create_ros_entities_ne_false (fuel : Nat) (env : TickEnv) (w w1 : World) :
    create_ros_entities fuel env w ≠ .returned (false, w1) := by
  intro h
  by_cases hc : env.creation_ok
  · rw [create_ros_entities_ok fuel env w hc] at h
    injection h with h
    injection h with h _
    cases h
  · obtain ⟨w2, t, e, _⟩ := create_ros_entities_fail fuel env w hc
    rw [e] at h
    cases h

theorem loop_waiting (fuel : Nat) (env : TickEnv) (w : World)
    (h : w.agent_state = .WAITING_AGENT) :
    loop fuel env w = .returned
      { w with
        agent_state := if env.ping = RMW_RET_OK then .AGENT_AVAILABLE else .WAITING_AGENT,
        val := sensor_val env.wire_error env.raw_code w.val,
        trace := w.trace ++ [.rmw_uros_ping_agent 100 1] ++
          sensor_calls env.wire_error env.raw_code env.lcd_width env.lcd_height } := by
  by_cases hp : env.ping = RMW_RET_OK <;>
    simp [loop, loop_switch, h, hp, Outcome.bind, loop_sensor_eq, World.call]

theorem loop_available_ok (fuel : Nat) (env : TickEnv) (w : World)
    (h : w.agent_state = .AGENT_AVAILABLE) (hc : env.creation_ok) :
    loop fuel env w = .returned
      { w with
        agent_state := .AGENT_CONNECTED, msg_data := 0,
        support_live := true, node_live := true, publisher_live := true,
        timer_live := true, executor_live := true, timer_added := true,
        val := sensor_val env.wire_error env.raw_code w.val,
        trace := w.trace ++ create_calls ++ [.lcd_fillScreen .TFT_BLACK] ++
          bold_calls (.lit "ROS Connected!")
            (Int.tdiv env.lcd_width 2) (Int.tdiv env.lcd_height 2) 2 .TFT_GREEN ++
          sensor_calls env.wire_error env.raw_code env.lcd_width env.lcd_height } := by
  simp [loop, loop_switch, h, create_ros_entities_ok fuel env w hc, Outcome.bind,
    loop_sensor_eq, World.call, drawBoldText, bold_calls]

theorem loop_available_fail (fuel : Nat) (env : TickEnv) (w : World)
    (h : w.agent_state = .AGENT_AVAILABLE) (hc : ¬ env.creation_ok) :
    ∃ w1 t, loop fuel env w = .looping w1 ∧
      w1.agent_state = .AGENT_AVAILABLE ∧ w1.val = w.val ∧
      w1.trace = w.trace ++ t ∧ (∀ c ∈ t, c.isInit = true ∨ c.isDisplay = true) ∧
      Retains env w w1 := by
  obtain ⟨w1, t, e, hs, hv, ht, hf, hr⟩ := create_ros_entities_fail fuel env w hc
  refine ⟨w1, t, ?_, hs.trans h, hv, ht, hf, hr⟩
  simp [loop, loop_switch, h, e, Outcome.bind]

theorem loop_connected (fuel : Nat) (env : TickEnv) (w : World)
    (h : w.agent_state = .AGENT_CONNECTED) :
    loop fuel env w = .returned
      { w with
        agent_state :=
          if env.ping = RMW_RET_OK then .AGENT_CONNECTED else .AGENT_DISCONNECTED,
        msg_data :=
          if env.ping = RMW_RET_OK ∧ env.timer_due = true then w.val else w.msg_data,
        val := sensor_val env.wire_error env.raw_code w.val,
        trace := w.trace ++ connected_calls env w.val ++
          sensor_calls env.wire_error env.raw_code env.lcd_width env.lcd_height } := by
  by_cases hp : env.ping = RMW_RET_OK <;> by_cases ht : env.timer_due = true <;>
    simp [loop, loop_switch, h, hp, ht, Outcome.bind, loop_sensor_eq, World.call,
      rclc_executor_spin_some, timer_callback, RCSOFTCHECK, connected_calls]

theorem loop_disconnected (fuel : Nat) (env : TickEnv) (w : World)
    (h : w.agent_state = .AGENT_DISCONNECTED) :
    loop fuel env w = .returned
      { w with
        agent_state := .WAITING_AGENT,
        support_live := false, node_live := false, publisher_live := false,
        timer_live := false, executor_live := false, timer_added := false,
        val := sensor_val env.wire_error env.raw_code w.val,
        trace := w.trace ++ destroy_calls ++ [.lcd_fillScreen .TFT_BLACK] ++
          bold_calls (.lit "ROS Disconnected!")
            (Int.tdiv env.lcd_width 2) (Int.tdiv env.lcd_height 2) 2 .TFT_RED ++
          sensor_calls env.wire_error env.raw_code env.lcd_width env.lcd_height } := by
  simp [loop, loop_switch, h, destroy_ros_entities, Outcome.bind, loop_sensor_eq,
    World.call, drawBoldText, bold_calls, destroy_calls]

theorem loop_tick_end_state (fuel : Nat) (env : TickEnv) (w : World) :
    match tick_end_state env w.agent_state with
    | some s => ∃ w1, loop fuel env w = .returned w1 ∧ w1.agent_state = s
    | none => ∃ w1, loop fuel env w = .looping w1 ∧ w1.agent_state = .AGENT_AVAILABLE := by
  cases hs : w.agent_state
  · simp only [tick_end_state]
    exact ⟨_, loop_waiting fuel env w hs, rfl⟩
  · by_cases hc : env.creation_ok
    · simp only [tick_end_state, hc, if_true]
      exact ⟨_, loop_available_ok fuel env w hs hc, rfl⟩
    · simp only [tick_end_state, hc, if_false]
      obtain ⟨w1, t, e, h1, _⟩ := loop_available_fail fuel env w hs hc
      exact ⟨w1, e, h1⟩
  · simp only [tick_end_state]
    exact ⟨_, loop_connected fuel env w hs, rfl⟩
  · simp only [tick_end_state]
    exact ⟨_, loop_disconnected fuel env w hs, rfl⟩

theorem loop_next_state (fuel : Nat) (env : TickEnv) (w : World) (s : AgentState)
    (h : tick_end_state env w.agent_state = some s) :
    ∃ w1, loop fuel env w = .returned w1 ∧ w1.agent_state = s := by
  have := loop_tick_end_state fuel env w
  rw [h] at this
  exact this

theorem sensor_calls_filter_isFini (e : Nat) (r lw lh : Int) :
    (sensor_calls e r lw lh).filter Call.isFini = [] := by
  by_cases h : e = 0 <;> simp [sensor_calls, bold_calls, h, Call.isFini]

theorem sensor_calls_filter_isInit (e : Nat) (r lw lh : Int) :
    (sensor_calls e r lw lh).filter Call.isInit = [] := by
  by_cases h : e = 0 <;> simp [sensor_calls, bold_calls, h, Call.isInit]

theorem sensor_calls_filter_isPublish (e : Nat) (r lw lh : Int) :
    (sensor_calls e r lw lh).filter Call.isPublish = [] := by
  by_cases h : e = 0 <;> simp [sensor_calls, bold_calls, h, Call.isPublish]

theorem loop_sensor_step (fuel : Nat) (env : TickEnv) (w : World)
    (h : w.agent_state = .AGENT_AVAILABLE → env.creation_ok) :
    ∃ w1 t, loop fuel env w = .returned w1 ∧
      w1.trace = w.trace ++ t ++
        sensor_calls env.wire_error env.raw_code env.lcd_width env.lcd_height ∧
      (∀ c ∈ t, c.isSensor = false) ∧
      w1.val = sensor_val env.wire_error env.raw_code w.val := by
  cases hs : w.agent_state
  · refine ⟨_, [.rmw_uros_ping_agent 100 1], loop_waiting fuel env w hs, rfl, ?_, rfl⟩
    simp [Call.isSensor]
  · refine ⟨_, create_calls ++ [.lcd_fillScreen .TFT_BLACK] ++
        bold_calls (.lit "ROS Connected!")
          (Int.tdiv env.lcd_width 2) (Int.tdiv env.lcd_height 2) 2 .TFT_GREEN,
      loop_available_ok fuel env w hs (h hs), ?_, ?_, rfl⟩
    · simp
    · simp [create_calls, bold_calls, Call.isSensor]
  · refine ⟨_, connected_calls env w.val, loop_connected fuel env w hs, rfl, ?_, rfl⟩
    by_cases hp : env.ping = RMW_RET_OK <;> by_cases ht : env.timer_due = true <;>
      simp [connected_calls, hp, ht, Call.isSensor]
  · refine ⟨_, destroy_calls ++ [.lcd_fillScreen .TFT_BLACK] ++
        bold_calls (.lit "ROS Disconnected!")
          (Int.tdiv env.lcd_width 2) (Int.tdiv env.lcd_height 2) 2 .TFT_RED,
      loop_disconnected fuel env w hs, ?_, ?_, rfl⟩
    · simp
    · simp [destroy_calls, bold_calls, Call.isSensor]

theorem loop_returned_val (fuel : Nat) (env : TickEnv) (w w1 : World)
    (h : loop fuel env w = .returned w1) :
    w1.val = sensor_val env.wire_error env.raw_code w.val := by
  by_cases hc : w.agent_state = .AGENT_AVAILABLE → env.creation_ok
  · obtain ⟨w2, t, e, _, _, hv⟩ := loop_sensor_step fuel env w hc
    rw [e] at h
    injection h with h
    subst h
    exact hv
  · rw [Classical.not_imp] at hc
    obtain ⟨w2, t, e, _⟩ := loop_available_fail fuel env w hc.1 hc.2
    rw [e] at h
    cases h

/-- C2, evaluated on the code at a failing input: in a tick that starts in
`AGENT_AVAILABLE` and in which `rclc_node_init_default` fails after a successful
`rclc_support_init`, `loop()` does not fall back to `WAITING_AGENT`.  No amount of fuel
lets the tick return; it stays in `error_loop` with `agent_state = AGENT_AVAILABLE`, the
support still initialised and no finalisation call made.  `create_ros_entities` never
returns `false`, so the `else` branch of `loop()` that sets `WAITING_AGENT` is dead. -/
theorem C2_failed_init_no_fallback :
    (¬ ∃ fuel w1, loop fuel env_node_fails world_available = .returned w1) ∧
    NeverReturns (fun fuel => loop fuel env_node_fails world_available) ∧
    (∃ w1, loop 3 env_node_fails world_available = .looping w1 ∧
      w1.agent_state = .AGENT_AVAILABLE ∧ w1.support_live = true ∧
      w1.trace.filter Call.isFini = []) ∧
    (∀ (fuel : Nat) (env : TickEnv) (w w1 : World),
      create_ros_entities fuel env w ≠ .returned (false, w1)) := by
  have hc : ¬ env_node_fails.creation_ok := by decide
  refine ⟨?_, ?_, ⟨_, rfl, rfl, rfl, by decide⟩, create_ros_entities_ne_false⟩
  · rintro ⟨fuel, w1, h⟩
    obtain ⟨w2, t, e, _⟩ := loop_available_fail fuel env_node_fails world_available rfl hc
    rw [e] at h
    cases h
  · intro fuel
    obtain ⟨w2, t, e, _⟩ := loop_available_fail fuel env_node_fails world_available rfl hc
    exact ⟨w2, e⟩

/-- C3, evaluated on the code at a failing input: from `AGENT_AVAILABLE`, a tick in
which `rclc_support_init` fails ends neither in `AGENT_CONNECTED` nor in
`WAITING_AGENT`.  Whatever the fuel, the tick has not returned and `agent_state` is
still `AGENT_AVAILABLE`, inside `error_loop`. -/
theorem C3_failed_init_tick_does_not_end :
    (¬ ∃ fuel w1, loop fuel env_support_fails world_available = .returned w1 ∧
      (w1.agent_state = .AGENT_CONNECTED ∨ w1.agent_state = .WAITING_AGENT)) ∧
    (∀ fuel : Nat, ∃ w1, loop fuel env_support_fails world_available = .looping w1 ∧
      w1.agent_state = .AGENT_AVAILABLE) := by
  have hc : ¬ env_support_fails.creation_ok := by decide
  constructor
  · rintro ⟨fuel, w1, h, _⟩
    obtain ⟨w2, t, e, _⟩ := loop_available_fail fuel env_support_fails world_available rfl hc
    rw [e] at h
    cases h
  · intro fuel
    obtain ⟨w2, t, e, hs, _⟩ :=
      loop_available_fail fuel env_support_fails world_available rfl hc
    exact ⟨w2, e, hs⟩

/-- C4: from `AGENT_CONNECTED` with the entity set alive, a failed probe gives
`AGENT_DISCONNECTED` after that tick and `WAITING_AGENT` after the next one, whatever
the second tick's environment; the first tick makes no finalisation call, the second
makes exactly the five finalisation calls of one `destroy_ros_entities`, and neither
makes a call of `create_ros_entities`. -/
theorem C4_disconnect_then_teardown (fuel : Nat) (e1 e2 : TickEnv) (w : World)
    (h : w.agent_state = .AGENT_CONNECTED) (ha : w.entities_exist = true)
    (hp : e1.ping ≠ RMW_RET_OK) :
    ∃ w1 w2 t1 t2, loop fuel e1 w = .returned w1 ∧ loop fuel e2 w1 = .returned w2 ∧
      w1.agent_state = .AGENT_DISCONNECTED ∧ w2.agent_state = .WAITING_AGENT ∧
      w1.trace = w.trace ++ t1 ∧ w2.trace = w1.trace ++ t2 ∧
      t1.filter Call.isFini = [] ∧ t2.filter Call.isFini = destroy_calls ∧
      t1.filter Call.isInit = [] ∧ t2.filter Call.isInit = [] ∧
      w1.entities_exist = true ∧ w2.entities_exist = false := by
  have a1 := loop_connected fuel e1 w h
  rw [if_neg hp] at a1
  have a2 := loop_disconnected fuel e2 _ (rfl :
    ({ w with
        agent_state := .AGENT_DISCONNECTED,
        msg_data := if e1.ping = RMW_RET_OK ∧ e1.timer_due = true then w.val else w.msg_data,
        val := sensor_val e1.wire_error e1.raw_code w.val,
        trace := w.trace ++ connected_calls e1 w.val ++
          sensor_calls e1.wire_error e1.raw_code e1.lcd_width e1.lcd_height } :
      World).agent_state = .AGENT_DISCONNECTED)
  refine ⟨_, _, connected_calls e1 w.val ++
      sensor_calls e1.wire_error e1.raw_code e1.lcd_width e1.lcd_height,
    destroy_calls ++ [.lcd_fillScreen .TFT_BLACK] ++
      bold_calls (.lit "ROS Disconnected!")
        (Int.tdiv e2.lcd_width 2) (Int.tdiv e2.lcd_height 2) 2 .TFT_RED ++
      sensor_calls e2.wire_error e2.raw_code e2.lcd_width e2.lcd_height,
    a1, a2, rfl, rfl, ?_, ?_, ?_, ?_, ?_, ?_, ?_, ?_⟩
  · simp
  · simp
  · simp [connected_calls, hp, sensor_calls_filter_isFini, Call.isFini]
  · simp [destroy_calls, bold_calls, sensor_calls_filter_isFini, Call.isFini]
  · simp [connected_calls, hp, sensor_calls_filter_isInit, Call.isInit]
  · simp [destroy_calls, bold_calls, sensor_calls_filter_isInit, Call.isInit]
  · simpa [World.entities_exist] using ha
  · simp [World.entities_exist]

/-- Witness of C4: a failed probe in the connected world, then any tick. -/
theorem C4_disconnect_then_teardown_witness :
    ∃ w1 w2 t1 t2, loop 0 (env_down 6400) world_connected = .returned w1 ∧
      loop 0 (env_up 6400) w1 = .returned w2 ∧
      w1.agent_state = .AGENT_DISCONNECTED ∧ w2.agent_state = .WAITING_AGENT ∧
      w1.trace = world_connected.trace ++ t1 ∧ w2.trace = w1.trace ++ t2 ∧
      t1.filter Call.isFini = [] ∧ t2.filter Call.isFini = destroy_calls ∧
      t1.filter Call.isInit = [] ∧ t2.filter Call.isInit = [] ∧
      w1.entities_exist = true ∧ w2.entities_exist = false :=
  C4_disconnect_then_teardown 0 (env_down 6400) (env_up 6400) world_connected rfl rfl
    (by decide)

/-! ## Sensor step and publish path -/

/-- C8, evaluated on the code at a failing input: a tick that starts in
`AGENT_AVAILABLE` and in which `rclc_timer_init_default` fails never returns, and
however long it runs it makes no call to the bus or to the ADC.  The sensor step of that
tick, and of every later tick, is not reached. -/
theorem C8_failed_init_skips_sensor_step :
    NeverReturns (fun fuel => loop fuel env_timer_fails world_available) ∧
    (∀ fuel w1, loop fuel env_timer_fails world_available = .looping w1 →
      ∀ c ∈ w1.trace, c.isSensor = false) := by
  have hc : ¬ env_timer_fails.creation_ok := by decide
  constructor
  · intro fuel
    obtain ⟨w2, t, e, _⟩ := loop_available_fail fuel env_timer_fails world_available rfl hc
    exact ⟨w2, e⟩
  · intro fuel w1 h c hm
    obtain ⟨w2, t, e, _, _, ht, hf, _⟩ :=
      loop_available_fail fuel env_timer_fails world_available rfl hc
    rw [e] at h
    injection h with h
    subst h
    rw [ht] at hm
    simp only [world_available, World.init, List.nil_append] at hm
    exact isSensor_false_of_init_or_display (hf c hm)

/-- C9 as stated fails: after two ticks whose sample is 20 (raw code 16000) the state is
`AGENT_CONNECTED`; in the next tick the timer fires and the sensor delivers raw code
6400.  The payload handed to `rcl_publish` is 20, the sample of the tick before, while
the sample computed and rendered in this tick is 11787913/2097152 (about 5.62). -/
theorem C9_counterexample :
    ∃ w2 w3 t, run 0 [env_up 16000, env_up 16000] World.init = .returned w2 ∧
      w2.agent_state = .AGENT_CONNECTED ∧
      loop 0 (env_up 6400) w2 = .returned w3 ∧ w3.trace = w2.trace ++ t ∧
      t.filter Call.isPublish = [.rcl_publish 20] ∧
      w3.val = 11787913 / 2097152 ∧ w3.msg_data = 20 ∧ w3.msg_data ≠ w3.val := by
  have r1 : Raw_ADC_of 16000 = 1000 := Raw_ADC_of_mul16 1000
  have r2 : Raw_ADC_of 6400 = 400 := Raw_ADC_of_mul16 400
  have c1 : scale 1000 = 20 := scale_high (by decide)
  have c2 : scale 400 = 11787913 / 2097152 := scale_400
  obtain ⟨w1, a1, s1⟩ := loop_next_state 0 (env_up 16000) World.init .AGENT_AVAILABLE
    (by simp [tick_end_state, World.init, env_up, RMW_RET_OK])
  obtain ⟨w2, a2, s2⟩ := loop_next_state 0 (env_up 16000) w1 .AGENT_CONNECTED
    (by rw [s1]; simp [tick_end_state, env_up, TickEnv.creation_ok, RCL_RET_OK])
  have v2 : w2.val = 20 := by
    rw [loop_returned_val 0 (env_up 16000) w1 w2 a2]
    simp [sensor_val, env_up, r1, c1]
  have a3 := loop_connected 0 (env_up 6400) w2 s2
  refine ⟨w2, _, connected_calls (env_up 6400) w2.val ++ sensor_calls (env_up 6400).wire_error
      (env_up 6400).raw_code (env_up 6400).lcd_width (env_up 6400).lcd_height,
    by simp only [run, a1, a2, Outcome.bind], s2, a3, by simp, ?_, ?_, ?_, ?_⟩
  · simp [connected_calls, env_up, RMW_RET_OK, sensor_calls_filter_isPublish,
      Call.isPublish, v2]
  · simp [sensor_val, env_up, r2, c2]
  · simp [env_up, RMW_RET_OK, v2]
  · simp only [env_up, RMW_RET_OK, v2, sensor_val, r2, c2]
    norm_num

/-- C9, amended: when the publish timer fires during a tick that starts in
`AGENT_CONNECTED` (the probe succeeds and the timer is due), the tick completes and the
one payload handed to `rcl_publish` (`msg.data`) is the value `val` holds when the tick
starts, which is the value left by the sensor step of the tick before; the publish comes
before the sensor step of the same tick, which then samples and renders the new value. -/
theorem C9_publish_payload_is_previous_val (fuel : Nat) (env : TickEnv) (w : World)
    (h : w.agent_state = .AGENT_CONNECTED) (hp : env.ping = RMW_RET_OK)
    (ht : env.timer_due = true) :
    ∃ w1, loop fuel env w = .returned w1 ∧
      w1.trace = w.trace ++
        [.rmw_uros_ping_agent 100 1, .rclc_executor_spin_some (RCL_MS_TO_NS 100),
          .rcl_publish w.val] ++
        sensor_calls env.wire_error env.raw_code env.lcd_width env.lcd_height ∧
      (sensor_calls env.wire_error env.raw_code env.lcd_width env.lcd_height).filter
        Call.isPublish = [] ∧
      w1.msg_data = w.val ∧
      w1.val = sensor_val env.wire_error env.raw_code w.val ∧
      (∀ (e0 : TickEnv) (w0 : World), loop fuel e0 w0 = .returned w →
        w.val = sensor_val e0.wire_error e0.raw_code w0.val) := by
  refine ⟨_, loop_connected fuel env w h, ?_, sensor_calls_filter_isPublish _ _ _ _, ?_, rfl,
    fun e0 w0 h0 => loop_returned_val fuel e0 w0 w h0⟩
  · simp [connected_calls, hp, ht]
  · simp [hp, ht]

/-- Witness of C9: the connected world (`val = 20`), timer due, raw code 6400. -/
theorem C9_publish_payload_is_previous_val_witness :
    ∃ w1, loop 0 (env_up 6400) world_connected = .returned w1 ∧
      w1.trace = world_connected.trace ++
        [.rmw_uros_ping_agent 100 1, .rclc_executor_spin_some (RCL_MS_TO_NS 100),
          .rcl_publish world_connected.val] ++
        sensor_calls 0 6400 320 240 ∧
      w1.msg_data = world_connected.val ∧
      w1.val = sensor_val 0 6400 world_connected.val := by
  obtain ⟨w1, e, t, _, m, v, _⟩ :=
    C9_publish_payload_is_previous_val 0 (env_up 6400) world_connected rfl rfl rfl
  exact ⟨w1, e, t, m, v⟩

/-- C10, evaluated on the code: `destroy_ros_entities` makes exactly these five
finalisation calls, each once, in this order; the node, the timer and the executor are
finalised before the support, but the publisher is finalised last, after its node and
after the support. -/
theorem C10_publisher_finalised_after_node (w : World) :
    (destroy_ros_entities w).trace = w.trace ++ destroy_calls ∧
    destroy_calls = [.rcl_timer_fini, .rclc_executor_fini, .rcl_node_fini,
      .rclc_support_fini, .rcl_publisher_fini] ∧
    destroy_calls.Nodup ∧
    destroy_calls.indexOf .rcl_timer_fini < destroy_calls.indexOf .rclc_support_fini ∧
    destroy_calls.indexOf .rclc_executor_fini < destroy_calls.indexOf .rclc_support_fini ∧
    destroy_calls.indexOf .rcl_node_fini < destroy_calls.indexOf .rclc_support_fini ∧
    destroy_calls.indexOf .rcl_node_fini < destroy_calls.indexOf .rcl_publisher_fini ∧
    destroy_calls.indexOf .rclc_support_fini < destroy_calls.indexOf .rcl_publisher_fini := by
  refine ⟨?_, rfl, by decide, by decide, by decide, by decide, by decide, by decide⟩
  simp [destroy_ros_entities, World.call, destroy_calls]

end ForceSensor
